import Mathlib

/-!
# Verification of SparkyAI core components

Shallow embedding of the three algorithmic components of the repository:

* `EmbeddingStore.search` / `EmbeddingStore.load`
  (packages/agent-core/agent_core/nodes/rag_retriever.py),
* `CircuitBreaker` (packages/agent-core/agent_core/utils/circuit_breaker.py),
* `TokenCounter` / `ConversationWindowManager`
  (packages/agent-core/agent_core/utils/token_counter.py),

together with theorems settling the specification claims about them.

Conventions of the embedding:

* Python/numpy float64 values are modelled by `F`: either a rational value or
  the IEEE-754 quiet NaN.  Floats are dyadic rationals, so every concrete float
  is a rational; NaN must be modelled explicitly because `search` can divide by
  a zero norm, and numpy then produces NaN scores rather than raising.
* `np.sqrt` (inside `np.linalg.norm`) is an external numeric primitive; it is
  abstracted as a parameter `s : ℚ → ℚ` (the correctly-rounded square root).
  The facts used about it are stated as hypotheses where needed and are true of
  IEEE-754 sqrt: `s 0 = 0` (sqrt of zero is exactly zero) and `0 < q → 0 < s q`
  (sqrt of a positive float never underflows to zero).
* `tiktoken` encoders are external; an encoder is abstracted as a token-count
  function `String → ℕ`.
* Wall-clock time (`time.time()`) is passed explicitly as a rational `now`.
-/

/-- Model of a numpy float64 that is either an ordinary (dyadic-rational)
value or NaN. -/
inductive F where
  | nan : F
  | val : ℚ → F
deriving DecidableEq

/-- Float addition: NaN propagates. -/
def F.add : F → F → F
  | F.val a, F.val b => F.val (a + b)
  | _, _ => F.nan

/-- Float multiplication: NaN propagates (in IEEE-754, `0 * NaN = NaN`). -/
def F.mul : F → F → F
  | F.val a, F.val b => F.val (a * b)
  | _, _ => F.nan

/-- Float division: NaN propagates, and division by zero yields NaN.
(IEEE-754 gives `0/0 = NaN` and `x/0 = ±inf` for `x ≠ 0`; in `search` every
division whose denominator is a zero norm also has a zero numerator — the norm
of a vector is zero only when the vector is all zeros, given that sqrt is
positive on positives — so the infinite case is unreachable there and is
collapsed to NaN here.) -/
def F.div : F → F → F
  | F.val a, F.val b => if b = 0 then F.nan else F.val (a / b)
  | _, _ => F.nan

/-- The total order used by numpy sorting: ordinary values compare as
rationals and NaN sorts to the end (i.e. NaN is treated as the greatest
element), per numpy documented sort behaviour. -/
def F.leb : F → F → Bool
  | F.val a, F.val b => decide (a ≤ b)
  | _, F.nan => true
  | F.nan, F.val _ => false

theorem F.leb_total (a b : F) : a.leb b = true ∨ b.leb a = true := by
  cases a <;> cases b <;> simp only [F.leb, decide_eq_true_eq] <;> try simp
  exact le_total _ _

theorem F.leb_trans {a b c : F} (h₁ : a.leb b = true) (h₂ : b.leb c = true) :
    a.leb c = true := by
  cases a <;> cases b <;> cases c <;> simp_all [F.leb]
  exact le_trans h₁ h₂

/-- Sum of squares of a vector: the argument of sqrt inside
`np.linalg.norm(v)`. -/
def sumSq (v : List ℚ) : ℚ := (v.map fun x => x * x).sum

/-- Dot product of two float vectors (`np.dot` on equal-length 1-D arrays). -/
def dotF (v w : List F) : F := (List.zipWith F.mul v w).foldl F.add (F.val 0)

/-- Python slice `l[-k:]` for a natural `k`: for `k = 0` this is `l[0:]`,
i.e. the whole list (the numpy pitfall behind the `top_k = 0` behaviour of
`search`); for `k ≥ 1` it is the last `min k (length l)` elements. -/
def sliceFromNeg (l : List α) (k : Nat) : List α :=
  if k = 0 then l else l.drop (l.length - k)

/-- The comparison `np.argsort` sorts indices by: index `i` precedes `j` when
`keys[i] ≤ keys[j]` in the numpy order (NaN last). -/
def argsortLE (keys : List F) (i j : Nat) : Prop :=
  F.leb (keys.getD i F.nan) (keys.getD j F.nan) = true

instance (keys : List F) : DecidableRel (argsortLE keys) := fun i j => by
  unfold argsortLE; infer_instance

/-- `np.argsort(keys)`: the indices `0, …, n-1` sorted ascending by their key
(NaN keys last).  numpy does not guarantee stability for the default sort, and
no claim depends on stability, so insertion sort is used as the model. -/
def argsort (keys : List F) : List Nat :=
  List.insertionSort (argsortLE keys) (List.range keys.length)

/-- `query_norm = query_embedding / np.linalg.norm(query_embedding)`
(rag_retriever.py line 100): elementwise division of the query by its norm,
where `np.linalg.norm(v)` is `s (sumSq v)` for the abstracted float sqrt `s`. -/
def query_norm (s : ℚ → ℚ) (q : List ℚ) : List F :=
  q.map fun x => F.div (F.val x) (F.val (s (sumSq q)))

/-- `embeddings_norm = self.embeddings / np.linalg.norm(self.embeddings,
axis=1, keepdims=True)` (rag_retriever.py lines 101–103): each row divided
elementwise by that row's norm. -/
def embeddings_norm (s : ℚ → ℚ) (store : List (List ℚ)) : List (List F) :=
  store.map fun row => row.map fun x => F.div (F.val x) (F.val (s (sumSq row)))

/-- `similarities = np.dot(embeddings_norm, query_norm)`
(rag_retriever.py line 106): matrix–vector product, i.e. one dot product per
row. -/
def similarities (s : ℚ → ℚ) (store : List (List ℚ)) (q : List ℚ) : List F :=
  (embeddings_norm s store).map fun row => dotF row (query_norm s q)

/-- `EmbeddingStore.search` (rag_retriever.py, lines 85–111), for an
embeddings matrix `store` (list of rows), query vector `q` and `top_k`;
`s` is the abstracted float sqrt used inside `np.linalg.norm`.

Mirrors the source:
* `if len(self.embeddings) == 0: return []`
* `top_indices = np.argsort(similarities)[-top_k:][::-1]`
* `return [(int(idx), float(similarities[idx])) for idx in top_indices]` -/
def search (s : ℚ → ℚ) (store : List (List ℚ)) (q : List ℚ) (top_k : Nat) :
    List (Nat × F) :=
  if store.length = 0 then []
  else
    ((sliceFromNeg (argsort (similarities s store q)) top_k).reverse).map
      fun idx => (idx, (similarities s store q).getD idx F.nan)

theorem similarities_length (s : ℚ → ℚ) (store : List (List ℚ)) (q : List ℚ) :
    (similarities s store q).length = store.length := by
  simp [similarities, embeddings_norm]

theorem argsort_length (keys : List F) : (argsort keys).length = keys.length := by
  simp [argsort, List.length_insertionSort]

theorem argsort_sorted (keys : List F) :
    List.Pairwise (argsortLE keys) (argsort keys) := by
  haveI : IsTotal Nat (argsortLE keys) := ⟨fun i j => F.leb_total _ _⟩
  haveI : IsTrans Nat (argsortLE keys) := ⟨fun i j k => F.leb_trans⟩
  exact List.sorted_insertionSort _ _

theorem sliceFromNeg_sublist (l : List α) (k : Nat) :
    (sliceFromNeg l k).Sublist l := by
  unfold sliceFromNeg
  split
  · exact List.Sublist.refl l
  · exact List.drop_sublist _ _

theorem sliceFromNeg_length_of_pos (l : List α) {k : Nat} (hk : 1 ≤ k) :
    (sliceFromNeg l k).length = min k l.length := by
  unfold sliceFromNeg
  rw [if_neg (by omega), List.length_drop]
  omega

/-- C1: on the empty index `search` returns the empty sequence for any query
and any `k`; on a non-empty index with `k ≥ 1` it returns `min k recordCount`
pairs `(record index, similarity score)` sorted by non-increasing similarity
score (non-increasing in the numpy sort order on floats, under which NaN is
greatest; on NaN-free scores this is the numeric order). -/
theorem search_returns_sorted_topk (s : ℚ → ℚ) (store : List (List ℚ))
    (q : List ℚ) (k : Nat) (hdim : ∀ row ∈ store, row.length = q.length) :
    (store = [] → search s store q k = []) ∧
      (store ≠ [] → 1 ≤ k →
        (search s store q k).length = min k store.length ∧
          List.Pairwise (fun a b : Nat × F => F.leb b.2 a.2 = true)
            (search s store q k)) := by
  constructor
  · intro h
    subst h
    rfl
  · intro hne hk
    have hlen0 : ¬ store.length = 0 := by simpa using hne
    refine ⟨?_, ?_⟩
    · unfold search
      rw [if_neg hlen0, List.length_map, List.length_reverse,
        sliceFromNeg_length_of_pos _ hk, argsort_length, similarities_length]
    · unfold search
      rw [if_neg hlen0]
      refine List.Pairwise.map _ (fun i j h => h) ?_
      rw [List.pairwise_reverse]
      exact List.Pairwise.sublist (sliceFromNeg_sublist _ _)
        (argsort_sorted (similarities s store q))

/-- C5 evidence: `search` does not guard the zero-norm query.  The query
vector `[0]` has norm `sqrt 0 = 0`; the source divides by it unguarded
(`query_embedding / np.linalg.norm(query_embedding)`, line 100), producing a
NaN component (`0/0`) and hence a NaN similarity score for the stored record:
the result is `[(0, NaN)]`, not a well-defined score of `0`.  (The concrete
sqrt `fun q => q` agrees with IEEE sqrt on every value reached here: `0 ↦ 0`,
`1 ↦ 1`.) -/
theorem search_zero_norm_query_gives_nan :
    query_norm (fun q => q) [0] = [F.nan] ∧
      search (fun q => q) [[1]] [0] 1 = [(0, F.nan)] := by
  constructor
  · with_unfolding_all rfl
  · with_unfolding_all rfl

/-- C6 evidence: `search` with `top_k = 0` returns all records, not the empty
result.  The source computes `np.argsort(similarities)[-0:]`, and the Python
slice `[-0:]` is the whole array, so on a two-record index every record is
returned (in non-increasing score order) instead of none. -/
theorem search_topk_zero_returns_all_records :
    search (fun q => q) [[1], [1]] [1] 0 = [(1, F.val 1), (0, F.val 1)] ∧
      (search (fun q => q) [[1], [1]] [1] 0).length = 2 := by
  constructor
  · with_unfolding_all rfl
  · with_unfolding_all rfl

/-- Witness for `search_returns_sorted_topk` at concrete inputs: the empty
index with `k = 3`, and a two-record index with `k = 1`. -/
theorem search_returns_sorted_topk_witness :
    search (fun q => q) [] [1] 3 = [] ∧
      ((search (fun q => q) [[1], [1]] [1] 1).length = min 1 2 ∧
        List.Pairwise (fun a b : Nat × F => F.leb b.2 a.2 = true)
          (search (fun q => q) [[1], [1]] [1] 1)) :=
  ⟨(search_returns_sorted_topk (fun q => q) [] [1] 3 (by simp)).1 rfl,
    (search_returns_sorted_topk (fun q => q) [[1], [1]] [1] 1
      (by intro row hrow; simp at hrow; simp [hrow])).2 (by simp) (by omega)⟩

/-- One entry of `chunks.json`: a JSON object read with `dict.get`, so every
field is optional (`chunk.get("id")`, `"content"`, `"source"`, `"category"`;
the open `metadata` mapping is not needed by any claim and is omitted). -/
structure Chunk where
  id : Option String
  content : Option String
  source : Option String
  category : Option String
deriving DecidableEq

/-- The three class-level caches of `EmbeddingStore` (rag_retriever.py lines
27–30): `_embeddings`, `_projections`, `_chunks`, each `None` until loaded. -/
structure EmbeddingStoreState where
  _embeddings : Option (List (List ℚ))
  _projections : Option (List (ℚ × ℚ))
  _chunks : Option (List Chunk)
deriving DecidableEq

/-- The on-disk artifacts visible to `EmbeddingStore.load`: each of
`embeddings.npy`, `projections_2d.npy` and `chunks.json` either exists (with
the parsed content) or is absent. -/
structure Disk where
  embeddings_file : Option (List (List ℚ))
  projections_file : Option (List (ℚ × ℚ))
  chunks_file : Option (List Chunk)
deriving DecidableEq

/-- `EmbeddingStore.load` (rag_retriever.py lines 37–65): a no-op when
`_embeddings` is already set; otherwise each artifact is loaded independently,
falling back to an empty store for a missing file (`np.array([])` for the
matrices, `[]` for the chunks).  The source performs no cross-artifact
row-count comparison. -/
def load (d : Disk) (st : EmbeddingStoreState) : EmbeddingStoreState :=
  if st._embeddings.isSome then st
  else
    { _embeddings := some (d.embeddings_file.getD [])
      _projections := some (d.projections_file.getD [])
      _chunks := some (d.chunks_file.getD []) }

/-- C4 evidence: `load` silently accepts a row-count mismatch.  On a disk
whose embeddings matrix has 1 row while the projections matrix and the chunk
metadata array have 0 rows, `load` from the fresh (unloaded) state succeeds,
caches the inconsistent artifacts as-is (the index is not surfaced as
empty/unavailable), and `search` then serves queries against them. -/
theorem load_accepts_row_count_mismatch :
    (load ⟨some [[1]], some [], some []⟩ ⟨none, none, none⟩)._embeddings
        = some [[1]] ∧
      (load ⟨some [[1]], some [], some []⟩ ⟨none, none, none⟩)._projections
        = some [] ∧
      (load ⟨some [[1]], some [], some []⟩ ⟨none, none, none⟩)._chunks
        = some [] ∧
      search (fun q => q)
          ((load ⟨some [[1]], some [], some []⟩
            ⟨none, none, none⟩)._embeddings.getD []) [1] 1
        = [(0, F.val 1)] := by
  refine ⟨rfl, rfl, rfl, ?_⟩
  with_unfolding_all rfl

/-- The `CircuitState` enum (circuit_breaker.py lines 25–29). -/
inductive CircuitState where
  | CLOSED : CircuitState
  | OPEN : CircuitState
  | HALF_OPEN : CircuitState
deriving DecidableEq

/-- `CircuitBreakerConfig` (circuit_breaker.py lines 32–49), generic in the
wrapped operation's error type `E`; `monitored e` models the isinstance check
`except self.config.monitored_exceptions`. -/
structure CircuitBreakerConfig (E : Type) where
  failure_threshold : Nat
  recovery_timeout : ℚ
  success_threshold : Nat
  failure_window : ℚ
  monitored : E → Bool

/-- `CircuitBreakerStats` (circuit_breaker.py lines 52–63). -/
structure CircuitBreakerStats where
  state : CircuitState
  failure_count : Nat
  success_count : Nat
  last_failure_time : Option ℚ
  last_state_change : ℚ
  total_calls : Nat
  total_failures : Nat
  total_successes : Nat
deriving DecidableEq

/-- A fresh `CircuitBreakerStats()` whose `last_state_change` default is the
creation time `t0`. -/
def initialStats (t0 : ℚ) : CircuitBreakerStats :=
  { state := CircuitState.CLOSED, failure_count := 0, success_count := 0,
    last_failure_time := none, last_state_change := t0,
    total_calls := 0, total_failures := 0, total_successes := 0 }

/-- `CircuitBreaker._should_attempt_reset` (lines 113–122). -/
def should_attempt_reset {E : Type} (cfg : CircuitBreakerConfig E) (now : ℚ)
    (st : CircuitBreakerStats) : Bool :=
  if st.state ≠ CircuitState.OPEN then false
  else
    match st.last_failure_time with
    | none => true
    | some t => decide (now - t ≥ cfg.recovery_timeout)

/-- `CircuitBreaker._is_failure_window_expired` (lines 124–130). -/
def is_failure_window_expired {E : Type} (cfg : CircuitBreakerConfig E)
    (now : ℚ) (st : CircuitBreakerStats) : Bool :=
  match st.last_failure_time with
  | none => true
  | some t => decide (now - t ≥ cfg.failure_window)

/-- `CircuitBreaker._open_circuit` (lines 178–186): note it zeroes
`success_count` but not `failure_count`. -/
def open_circuit (now : ℚ) (st : CircuitBreakerStats) : CircuitBreakerStats :=
  { st with state := CircuitState.OPEN, last_state_change := now,
            success_count := 0 }

/-- `CircuitBreaker._close_circuit` (lines 188–194): zeroes both counters. -/
def close_circuit (now : ℚ) (st : CircuitBreakerStats) : CircuitBreakerStats :=
  { st with state := CircuitState.CLOSED, last_state_change := now,
            failure_count := 0, success_count := 0 }

/-- `CircuitBreaker._half_open_circuit` (lines 196–201): zeroes
`success_count` but not `failure_count`. -/
def half_open_circuit (now : ℚ) (st : CircuitBreakerStats) :
    CircuitBreakerStats :=
  { st with state := CircuitState.HALF_OPEN, last_state_change := now,
            success_count := 0 }

/-- `CircuitBreaker._record_success` (lines 132–151). -/
def record_success {E : Type} (cfg : CircuitBreakerConfig E) (now : ℚ)
    (st : CircuitBreakerStats) : CircuitBreakerStats :=
  let st1 := { st with total_calls := st.total_calls + 1,
                       total_successes := st.total_successes + 1 }
  match st1.state with
  | CircuitState.HALF_OPEN =>
      let st2 := { st1 with success_count := st1.success_count + 1 }
      if st2.success_count ≥ cfg.success_threshold then close_circuit now st2
      else st2
  | CircuitState.CLOSED =>
      if is_failure_window_expired cfg now st1 then
        { st1 with failure_count := 0 }
      else st1
  | CircuitState.OPEN => st1

/-- `CircuitBreaker._record_failure` (lines 153–176). -/
def record_failure {E : Type} (cfg : CircuitBreakerConfig E) (now : ℚ)
    (st : CircuitBreakerStats) : CircuitBreakerStats :=
  let st1 := { st with total_calls := st.total_calls + 1,
                       total_failures := st.total_failures + 1,
                       last_failure_time := some now }
  match st1.state with
  | CircuitState.HALF_OPEN => open_circuit now st1
  | CircuitState.CLOSED =>
      let st2 := { st1 with failure_count := st1.failure_count + 1 }
      if st2.failure_count ≥ cfg.failure_threshold then open_circuit now st2
      else st2
  | CircuitState.OPEN => st1

/-- What `CircuitBreaker.call` surfaces to the caller: the wrapped value, the
wrapped operation's own exception re-raised, or the breaker's distinguished
`CircuitBreakerError`. -/
inductive CallResult (T E : Type) where
  | ok : T → CallResult T E
  | wrappedErr : E → CallResult T E
  | breakerErr : CallResult T E
deriving DecidableEq

/-- Observable effect of one `CircuitBreaker.call`: the surfaced result, the
stats afterwards, and whether the wrapped operation was invoked. -/
structure CallOutcome (T E : Type) where
  result : CallResult T E
  stats : CircuitBreakerStats
  invoked : Bool
deriving DecidableEq

/-- `CircuitBreaker.call` (lines 203–245).  `op : Except E T` is the outcome
the wrapped async function would produce if invoked.  The single-threaded
model serializes what the asyncio lock serializes, and one `now` stands for
the (logically simultaneous) `time.time()` readings inside one call. -/
def call {E T : Type} (cfg : CircuitBreakerConfig E) (now : ℚ)
    (st : CircuitBreakerStats) (op : Except E T) : CallOutcome T E :=
  let st1 :=
    if should_attempt_reset cfg now st then
      if st.state = CircuitState.OPEN then half_open_circuit now st else st
    else st
  if st1.state = CircuitState.OPEN then
    { result := CallResult.breakerErr, stats := st1, invoked := false }
  else
    match op with
    | Except.ok t =>
        { result := CallResult.ok t, stats := record_success cfg now st1,
          invoked := true }
    | Except.error e =>
        if cfg.monitored e then
          { result := CallResult.wrappedErr e,
            stats := record_failure cfg now st1, invoked := true }
        else
          { result := CallResult.wrappedErr e, stats := st1, invoked := true }

/-- The stats after one call whose wrapped operation fails with `e`. -/
def failCall {E : Type} (cfg : CircuitBreakerConfig E) (now : ℚ)
    (st : CircuitBreakerStats) (e : E) : CircuitBreakerStats :=
  (call cfg now st (Except.error e : Except E Unit)).stats

/-- C2: with `failure_threshold = 3` and the breaker starting Closed, three
consecutive monitored failures of the wrapped operation take the state
Closed→Open (it is still Closed after two); a fourth call attempted while
Open, before the recovery timeout has elapsed, surfaces the breaker's own
distinguished rejection (`CallResult.breakerErr`, a different kind from every
wrapped-operation error `CallResult.wrappedErr e`), does not invoke the
wrapped operation, and leaves the stats untouched. -/
theorem breaker_trips_at_three_and_rejects_fourth {E T : Type}
    (cfg : CircuitBreakerConfig E) (e : E) (t0 t1 t2 t3 t4 : ℚ)
    (op : Except E T)
    (hth : cfg.failure_threshold = 3) (he : cfg.monitored e = true)
    (hrec : t4 - t3 < cfg.recovery_timeout) :
    (failCall cfg t2 (failCall cfg t1 (initialStats t0) e) e).state
        = CircuitState.CLOSED ∧
      (failCall cfg t3 (failCall cfg t2 (failCall cfg t1 (initialStats t0) e) e) e).state
        = CircuitState.OPEN ∧
      (call cfg t4
          (failCall cfg t3 (failCall cfg t2 (failCall cfg t1 (initialStats t0) e) e) e)
          op).result = CallResult.breakerErr ∧
      (call cfg t4
          (failCall cfg t3 (failCall cfg t2 (failCall cfg t1 (initialStats t0) e) e) e)
          op).invoked = false ∧
      (call cfg t4
          (failCall cfg t3 (failCall cfg t2 (failCall cfg t1 (initialStats t0) e) e) e)
          op).stats
        = failCall cfg t3 (failCall cfg t2 (failCall cfg t1 (initialStats t0) e) e) e ∧
      ∀ e2 : E, (CallResult.breakerErr : CallResult T E) ≠ CallResult.wrappedErr e2 := by
  have h1 : failCall cfg t1 (initialStats t0) e =
      { state := CircuitState.CLOSED, failure_count := 1, success_count := 0,
        last_failure_time := some t1, last_state_change := t0,
        total_calls := 1, total_failures := 1, total_successes := 0 } := by
    simp [failCall, call, should_attempt_reset, initialStats, record_failure, he, hth]
  have h2 : failCall cfg t2 (failCall cfg t1 (initialStats t0) e) e =
      { state := CircuitState.CLOSED, failure_count := 2, success_count := 0,
        last_failure_time := some t2, last_state_change := t0,
        total_calls := 2, total_failures := 2, total_successes := 0 } := by
    rw [h1]
    simp [failCall, call, should_attempt_reset, record_failure, he, hth]
  have h3 : failCall cfg t3 (failCall cfg t2 (failCall cfg t1 (initialStats t0) e) e) e =
      { state := CircuitState.OPEN, failure_count := 3, success_count := 0,
        last_failure_time := some t3, last_state_change := t3,
        total_calls := 3, total_failures := 3, total_successes := 0 } := by
    rw [h2]
    simp [failCall, call, should_attempt_reset, record_failure, open_circuit, he, hth]
  have h4 : should_attempt_reset cfg t4
      (failCall cfg t3 (failCall cfg t2 (failCall cfg t1 (initialStats t0) e) e) e) = false := by
    rw [h3]
    simp [should_attempt_reset]
    exact hrec
  refine ⟨by rw [h2], by rw [h3], ?_, ?_, ?_, fun e2 => by simp⟩
  · simp [call, h4]
    rw [h3]
    simp
  · simp [call, h4]
    rw [h3]
    simp
  · simp [call, h4]
    rw [h3]
    simp

/-- The configuration of `get_embedding_breaker()` (circuit_breaker.py lines
292–305): failure_threshold 3, recovery_timeout 30, success_threshold 2,
failure_window 60; the default `monitored_exceptions = (Exception,)` catches
every wrapped error. -/
def embBreakerCfg : CircuitBreakerConfig Unit :=
  { failure_threshold := 3, recovery_timeout := 30, success_threshold := 2,
    failure_window := 60, monitored := fun _ => true }

/-- Witness for `breaker_trips_at_three_and_rejects_fourth`: the
`get_embedding_breaker` configuration, failures at times 1, 2, 3 and a fourth
call at time 4 (within the 30-second recovery timeout). -/
theorem breaker_trips_at_three_and_rejects_fourth_witness :
    (failCall embBreakerCfg 2 (failCall embBreakerCfg 1 (initialStats 0) ()) ()).state
        = CircuitState.CLOSED ∧
      (failCall embBreakerCfg 3
          (failCall embBreakerCfg 2 (failCall embBreakerCfg 1 (initialStats 0) ()) ()) ()).state
        = CircuitState.OPEN ∧
      (call embBreakerCfg 4
          (failCall embBreakerCfg 3
            (failCall embBreakerCfg 2 (failCall embBreakerCfg 1 (initialStats 0) ()) ()) ())
          (Except.error () : Except Unit Unit)).result = CallResult.breakerErr ∧
      (call embBreakerCfg 4
          (failCall embBreakerCfg 3
            (failCall embBreakerCfg 2 (failCall embBreakerCfg 1 (initialStats 0) ()) ()) ())
          (Except.error () : Except Unit Unit)).invoked = false ∧
      (call embBreakerCfg 4
          (failCall embBreakerCfg 3
            (failCall embBreakerCfg 2 (failCall embBreakerCfg 1 (initialStats 0) ()) ()) ())
          (Except.error () : Except Unit Unit)).stats
        = failCall embBreakerCfg 3
            (failCall embBreakerCfg 2 (failCall embBreakerCfg 1 (initialStats 0) ()) ()) () ∧
      ∀ e2 : Unit,
        (CallResult.breakerErr : CallResult Unit Unit) ≠ CallResult.wrappedErr e2 :=
  breaker_trips_at_three_and_rejects_fourth embBreakerCfg () 0 1 2 3 4
    (Except.error ()) rfl rfl (by norm_num [embBreakerCfg])

/-- C8 counterexample: the Closed→Open transition does not reset
`failure_count`.  Running three monitored failures from a fresh breaker with
`failure_threshold = 3` trips Closed→Open, after which `failure_count` is
still 3, not 0 (`_open_circuit` zeroes only `success_count`). -/
theorem open_transition_keeps_failure_count :
    (failCall embBreakerCfg 2 (failCall embBreakerCfg 1 (initialStats 0) ()) ()).state
        = CircuitState.CLOSED ∧
      (failCall embBreakerCfg 3
          (failCall embBreakerCfg 2 (failCall embBreakerCfg 1 (initialStats 0) ()) ()) ()).state
        = CircuitState.OPEN ∧
      (failCall embBreakerCfg 3
          (failCall embBreakerCfg 2 (failCall embBreakerCfg 1 (initialStats 0) ()) ()) ()).failure_count
        = 3 := by
  refine ⟨?_, ?_, ?_⟩ <;> with_unfolding_all rfl

/-- C8 (amended): `success_count` is reset to 0 by every transition function
(`_open_circuit`, `_half_open_circuit`, `_close_circuit`), but
`failure_count` is reset only on the transition to Closed; transitions to
Open and HalfOpen leave `failure_count` unchanged. -/
theorem transition_functions_reset_success_count_only (now : ℚ)
    (st : CircuitBreakerStats) :
    (open_circuit now st).success_count = 0 ∧
      (open_circuit now st).failure_count = st.failure_count ∧
      (half_open_circuit now st).success_count = 0 ∧
      (half_open_circuit now st).failure_count = st.failure_count ∧
      (close_circuit now st).success_count = 0 ∧
      (close_circuit now st).failure_count = 0 := by
  simp [open_circuit, half_open_circuit, close_circuit]

/-- A breaker configuration over `E := Bool` whose monitored check is the
error value itself: `true` models an exception instance of the configured
`monitored_exceptions`, `false` one that is not. -/
def monByKindCfg : CircuitBreakerConfig Bool :=
  { failure_threshold := 3, recovery_timeout := 30, success_threshold := 2,
    failure_window := 60, monitored := fun b => b }

/-- C9 counterexample: a non-monitored exception does not always leave the
breaker unchanged.  With the breaker Open (after three monitored failures,
last at time 2) and the recovery timeout elapsed (call at time 40 ≥ 2 + 30),
`call` first performs the Open→HalfOpen probe transition and then invokes the
operation; the non-monitored exception propagates, but the state observed
after the call is HalfOpen where it was Open before — not "exactly as it was
before the call". -/
theorem nonmonitored_error_after_timeout_changes_state :
    (failCall monByKindCfg 2
        (failCall monByKindCfg 1 (failCall monByKindCfg 0 (initialStats 0) true) true)
        true).state = CircuitState.OPEN ∧
      (call monByKindCfg 40
          (failCall monByKindCfg 2
            (failCall monByKindCfg 1 (failCall monByKindCfg 0 (initialStats 0) true) true)
            true)
          (Except.error false : Except Bool Unit)).result
        = CallResult.wrappedErr false ∧
      (call monByKindCfg 40
          (failCall monByKindCfg 2
            (failCall monByKindCfg 1 (failCall monByKindCfg 0 (initialStats 0) true) true)
            true)
          (Except.error false : Except Bool Unit)).stats.state
        = CircuitState.HALF_OPEN := by
  refine ⟨?_, ?_, ?_⟩ <;> with_unfolding_all rfl

/-- C9 (amended): when the wrapped operation raises an exception that is not
an instance of the configured monitored exception types and the breaker is
not Open at entry (so no recovery probe transition fires), `call` re-raises
that exception and leaves the breaker exactly unchanged: state, counters,
timestamps and the totals `total_calls`/`total_failures`/`total_successes`
are all as before — the call is not even counted.  (If the breaker is Open
with the recovery timeout elapsed, the entry-time Open→HalfOpen transition
still changes the stats before the operation runs; the exception branch
itself still records nothing.) -/
theorem nonmonitored_error_frame {E T : Type} (cfg : CircuitBreakerConfig E)
    (now : ℚ) (st : CircuitBreakerStats) (e : E)
    (hmon : cfg.monitored e = false) (hstate : st.state ≠ CircuitState.OPEN) :
    (call cfg now st (Except.error e : Except E T)).result
        = CallResult.wrappedErr e ∧
      (call cfg now st (Except.error e : Except E T)).stats = st ∧
      (call cfg now st (Except.error e : Except E T)).invoked = true := by
  have h1 : should_attempt_reset cfg now st = false := by
    simp [should_attempt_reset, hstate]
  refine ⟨?_, ?_, ?_⟩ <;> simp [call, h1, hstate, hmon]

/-- A configuration (the `CircuitBreakerConfig` defaults) in which no error
is monitored. -/
def noMonCfg : CircuitBreakerConfig Unit :=
  { failure_threshold := 5, recovery_timeout := 60, success_threshold := 2,
    failure_window := 120, monitored := fun _ => false }

/-- Witness for `nonmonitored_error_frame`: a fresh (Closed) breaker whose
wrapped operation raises a non-monitored exception. -/
theorem nonmonitored_error_frame_witness :
    (call noMonCfg 7 (initialStats 0) (Except.error () : Except Unit Unit)).result
        = CallResult.wrappedErr () ∧
      (call noMonCfg 7 (initialStats 0) (Except.error () : Except Unit Unit)).stats
        = initialStats 0 ∧
      (call noMonCfg 7 (initialStats 0) (Except.error () : Except Unit Unit)).invoked
        = true :=
  nonmonitored_error_frame noMonCfg 7 (initialStats 0) () rfl
    (by simp [initialStats])

/-- A `Message` TypedDict (token_counter.py lines 12–15): `role` and
`content`.  (The `"name" in message` branch of `count_message_tokens` never
fires for these two-key dicts, the only ones built on the truncation path.) -/
structure Message where
  role : String
  content : String
deriving DecidableEq

/-- `TokenCounter` (token_counter.py lines 18–32): the model name and the
resolved tiktoken encoding.  tiktoken is external, so an encoding is
abstracted by its induced token-count function
`encode_len text = len(encoding.encode(text))`. -/
structure TokenCounter where
  model : String
  encode_len : String → Nat

/-- `TokenCounter.__init__`: resolve the encoding for `model`.  `encFor`
abstracts `tiktoken.encoding_for_model` together with its `cl100k_base`
fallback for unknown model names. -/
def TokenCounter.make (encFor : String → String → Nat) (model : String) :
    TokenCounter :=
  { model := model, encode_len := encFor model }

/-- `TokenCounter.count_tokens` (lines 34–43). -/
def count_tokens (tc : TokenCounter) (text : String) : Nat :=
  tc.encode_len text

/-- `TokenCounter.count_message_tokens` (lines 45–62): 3 tokens of base
overhead plus the role and content tokens; no `name` key on a `Message`. -/
def count_message_tokens (tc : TokenCounter) (msg : Message) : Nat :=
  3 + count_tokens tc msg.role + count_tokens tc msg.content

/-- `TokenCounter.count_messages_tokens` (lines 64–75): per-message counts
plus 3 reply-priming tokens. -/
def count_messages_tokens (tc : TokenCounter) (msgs : List Message) : Nat :=
  (msgs.map (count_message_tokens tc)).sum + 3

/-- `TokenCounter.count_conversation_tokens` (lines 77–90): re-wraps each
turn as a role/content dict and counts. -/
def count_conversation_tokens (tc : TokenCounter) (conv : List Message) : Nat :=
  count_messages_tokens tc
    (conv.map fun m => { role := m.role, content := m.content })

/-- `ConversationWindowManager` (token_counter.py lines 93–111). -/
structure ConversationWindowManager where
  max_tokens : Int
  min_messages_to_keep : Nat
  token_counter : TokenCounter

/-- The eviction step of the truncation loop (lines 150–155):
`truncated.pop(1)` when the first message's role is `"system"`, else
`truncated.pop(0)`. -/
def popOldest (l : List Message) : List Message :=
  if (l.headD { role := "", content := "" }).role = "system" then l.eraseIdx 1
  else l.eraseIdx 0

/-- The `while len(truncated) > self.min_messages_to_keep` loop of
`truncate_conversation` (lines 149–160), written with explicit fuel; fuel
`l.length` suffices because every iteration with `min_messages_to_keep ≥ 1`
shortens the list by exactly one.  (With `min_messages_to_keep = 0` the
Python loop can instead raise IndexError from `pop(1)` on a singleton list
headed by a system message; every theorem below therefore assumes
`min_messages_to_keep ≥ 1`, true of every construction in the repository —
the constructor default is 4.) -/
def truncLoop (cwm : ConversationWindowManager) (available : Int) :
    Nat → List Message → List Message
  | 0, l => l
  | fuel + 1, l =>
    if l.length ≤ cwm.min_messages_to_keep then l
    else if (count_conversation_tokens cwm.token_counter (popOldest l) : Int)
        ≤ available then popOldest l
    else truncLoop cwm available fuel (popOldest l)

/-- `ConversationWindowManager.truncate_conversation` (lines 113–162); the
local `available_tokens = max_tokens - system_prompt_tokens -
rag_context_tokens` is inlined. -/
def truncate_conversation (cwm : ConversationWindowManager)
    (conversation : List Message)
    (system_prompt_tokens rag_context_tokens : Int) : List Message :=
  if conversation.length ≤ cwm.min_messages_to_keep then conversation
  else if (count_conversation_tokens cwm.token_counter conversation : Int)
      ≤ cwm.max_tokens - system_prompt_tokens - rag_context_tokens then
    conversation
  else
    truncLoop cwm (cwm.max_tokens - system_prompt_tokens - rag_context_tokens)
      conversation.length conversation

theorem count_messages_tokens_ge_three (tc : TokenCounter)
    (msgs : List Message) : 3 ≤ count_messages_tokens tc msgs := by
  simp [count_messages_tokens]

theorem count_conversation_tokens_ge_three (tc : TokenCounter)
    (conv : List Message) : 3 ≤ count_conversation_tokens tc conv :=
  count_messages_tokens_ge_three _ _

theorem popOldest_length_le (l : List Message) :
    (popOldest l).length ≤ l.length := by
  unfold popOldest
  split <;> rw [List.length_eraseIdx] <;> split <;> omega

theorem popOldest_length_ge (l : List Message) :
    l.length - 1 ≤ (popOldest l).length := by
  unfold popOldest
  split <;> rw [List.length_eraseIdx] <;> split <;> omega

theorem popOldest_length_eq {l : List Message} (h : 2 ≤ l.length) :
    (popOldest l).length = l.length - 1 := by
  unfold popOldest
  split <;> rw [List.length_eraseIdx, if_pos (by omega)]

theorem truncLoop_length_le (cwm : ConversationWindowManager)
    (available : Int) :
    ∀ (fuel : Nat) (l : List Message),
      (truncLoop cwm available fuel l).length ≤ l.length := by
  intro fuel
  induction fuel with
  | zero => intro l; simp [truncLoop]
  | succ n ih =>
    intro l
    rw [truncLoop]
    split
    · exact le_refl _
    · split
      · exact popOldest_length_le l
      · exact le_trans (ih (popOldest l)) (popOldest_length_le l)

theorem truncLoop_length_ge (cwm : ConversationWindowManager)
    (available : Int) :
    ∀ (fuel : Nat) (l : List Message),
      cwm.min_messages_to_keep ≤ l.length →
      cwm.min_messages_to_keep ≤ (truncLoop cwm available fuel l).length := by
  intro fuel
  induction fuel with
  | zero => intro l h; simpa [truncLoop] using h
  | succ n ih =>
    intro l h
    rw [truncLoop]
    split
    · exact h
    · rename_i hlen
      have h2 : cwm.min_messages_to_keep ≤ (popOldest l).length := by
        have := popOldest_length_ge l
        omega
      split
      · exact h2
      · exact ih (popOldest l) h2

theorem truncLoop_length_eq_min (cwm : ConversationWindowManager)
    (available : Int) (hmin : 1 ≤ cwm.min_messages_to_keep)
    (hav : available < 3) :
    ∀ (fuel : Nat) (l : List Message),
      cwm.min_messages_to_keep ≤ l.length → l.length - cwm.min_messages_to_keep ≤ fuel →
      (truncLoop cwm available fuel l).length = cwm.min_messages_to_keep := by
  intro fuel
  induction fuel with
  | zero =>
    intro l h1 h2
    have : l.length = cwm.min_messages_to_keep := by omega
    simpa [truncLoop] using this
  | succ n ih =>
    intro l h1 h2
    rw [truncLoop]
    split
    · rename_i hle
      omega
    · rename_i hgt
      have hlen2 : 2 ≤ l.length := by omega
      have hpop := popOldest_length_eq hlen2
      have hnofit :
          ¬ ((count_conversation_tokens cwm.token_counter (popOldest l) : Int)
            ≤ available) := by
        have h3 := count_conversation_tokens_ge_three cwm.token_counter (popOldest l)
        have : (3 : Int) ≤ (count_conversation_tokens cwm.token_counter (popOldest l) : Int) := by
          exact_mod_cast h3
        omega
      rw [if_neg hnofit]
      exact ih (popOldest l) (by omega) (by omega)

/-- C3: `truncate_conversation` returns at most as many turns as given and at
least `min minMessagesToKeep (length turns)` turns; moreover when the
available budget `maxTokens - systemPromptTokens - ragContextTokens` is zero
or negative and the conversation is longer than `minMessagesToKeep`, the loop
terminates with exactly `minMessagesToKeep` turns.  (Assumes
`minMessagesToKeep ≥ 1`; the repository always uses the default 4.) -/
theorem truncate_conversation_length_bounds (cwm : ConversationWindowManager)
    (conversation : List Message) (sysT ragT : Int)
    (hmin : 1 ≤ cwm.min_messages_to_keep) :
    (truncate_conversation cwm conversation sysT ragT).length
        ≤ conversation.length ∧
      min cwm.min_messages_to_keep conversation.length
        ≤ (truncate_conversation cwm conversation sysT ragT).length ∧
      (cwm.max_tokens - sysT - ragT ≤ 0 →
        cwm.min_messages_to_keep < conversation.length →
        (truncate_conversation cwm conversation sysT ragT).length
          = cwm.min_messages_to_keep) := by
  unfold truncate_conversation
  split
  · rename_i h1
    exact ⟨le_refl _, min_le_right _ _, fun _ h => by omega⟩
  · rename_i h1
    split
    · rename_i h2
      refine ⟨le_refl _, min_le_right _ _, fun hav _ => ?_⟩
      have h3 := count_conversation_tokens_ge_three cwm.token_counter conversation
      have : (3 : Int) ≤ (count_conversation_tokens cwm.token_counter conversation : Int) := by
        exact_mod_cast h3
      omega
    · rename_i h2
      refine ⟨truncLoop_length_le _ _ _ _, ?_, ?_⟩
      · have := truncLoop_length_ge cwm
          (cwm.max_tokens - sysT - ragT) conversation.length conversation (by omega)
        omega
      · intro hav _
        exact truncLoop_length_eq_min cwm _ hmin (by omega) conversation.length
          conversation (by omega) (by omega)

/-- Witness for `truncate_conversation_length_bounds`: a five-message
conversation under a manager with `max_tokens = 0` (so the budget is
non-positive) and the default `min_messages_to_keep = 4` truncates to exactly
4 turns. -/
theorem truncate_conversation_length_bounds_witness :
    (truncate_conversation
        { max_tokens := 0, min_messages_to_keep := 4,
          token_counter := { model := "gpt-4o-mini", encode_len := fun t => t.length } }
        [{ role := "user", content := "a" }, { role := "assistant", content := "b" },
         { role := "user", content := "c" }, { role := "assistant", content := "d" },
         { role := "user", content := "e" }] 0 0).length ≤ 5 ∧
      min 4 5
        ≤ (truncate_conversation
            { max_tokens := 0, min_messages_to_keep := 4,
              token_counter := { model := "gpt-4o-mini", encode_len := fun t => t.length } }
            [{ role := "user", content := "a" }, { role := "assistant", content := "b" },
             { role := "user", content := "c" }, { role := "assistant", content := "d" },
             { role := "user", content := "e" }] 0 0).length ∧
      (truncate_conversation
          { max_tokens := 0, min_messages_to_keep := 4,
            token_counter := { model := "gpt-4o-mini", encode_len := fun t => t.length } }
          [{ role := "user", content := "a" }, { role := "assistant", content := "b" },
           { role := "user", content := "c" }, { role := "assistant", content := "d" },
           { role := "user", content := "e" }] 0 0).length = 4 := by
  have h := truncate_conversation_length_bounds
    { max_tokens := 0, min_messages_to_keep := 4,
      token_counter := { model := "gpt-4o-mini", encode_len := fun t => t.length } }
    [{ role := "user", content := "a" }, { role := "assistant", content := "b" },
     { role := "user", content := "c" }, { role := "assistant", content := "d" },
     { role := "user", content := "e" }] 0 0 (by decide)
  exact ⟨h.1, h.2.1, h.2.2 (by decide) (by decide)⟩

theorem truncLoop_post (cwm : ConversationWindowManager) (available : Int)
    (hmin : 1 ≤ cwm.min_messages_to_keep) :
    ∀ (fuel : Nat) (l : List Message), l.length ≤ fuel →
      (truncLoop cwm available fuel l).length ≤ cwm.min_messages_to_keep ∨
        (count_conversation_tokens cwm.token_counter
            (truncLoop cwm available fuel l) : Int) ≤ available := by
  intro fuel
  induction fuel with
  | zero =>
    intro l h
    left
    simp only [truncLoop]
    omega
  | succ n ih =>
    intro l h
    rw [truncLoop]
    split
    · rename_i h1
      exact Or.inl h1
    · rename_i h1
      split
      · rename_i h2
        exact Or.inr h2
      · rename_i h2
        have hlen2 : 2 ≤ l.length := by omega
        exact ih (popOldest l) (by have := popOldest_length_eq hlen2; omega)

theorem truncate_conversation_post (cwm : ConversationWindowManager)
    (conversation : List Message) (sysT ragT : Int)
    (hmin : 1 ≤ cwm.min_messages_to_keep) :
    (truncate_conversation cwm conversation sysT ragT).length
        ≤ cwm.min_messages_to_keep ∨
      (count_conversation_tokens cwm.token_counter
          (truncate_conversation cwm conversation sysT ragT) : Int)
        ≤ cwm.max_tokens - sysT - ragT := by
  unfold truncate_conversation
  split
  · rename_i h1
    exact Or.inl h1
  · split
    · rename_i h1 h2
      exact Or.inr h2
    · exact truncLoop_post cwm _ hmin conversation.length conversation (le_refl _)

theorem truncate_conversation_of_short (cwm : ConversationWindowManager)
    {c : List Message} (sysT ragT : Int)
    (h : c.length ≤ cwm.min_messages_to_keep) :
    truncate_conversation cwm c sysT ragT = c := by
  rw [truncate_conversation, if_pos h]

theorem truncate_conversation_of_fits (cwm : ConversationWindowManager)
    {c : List Message} (sysT ragT : Int)
    (h1 : ¬ c.length ≤ cwm.min_messages_to_keep)
    (h2 : (count_conversation_tokens cwm.token_counter c : Int)
      ≤ cwm.max_tokens - sysT - ragT) :
    truncate_conversation cwm c sysT ragT = c := by
  rw [truncate_conversation, if_neg h1, if_pos h2]

/-- C7: `truncate_conversation` is idempotent — for a fixed pair of
system-prompt and RAG-context token counts, applying it to its own output
returns that output unchanged.  (Assumes `minMessagesToKeep ≥ 1`; the
repository always uses the default 4.) -/
theorem truncate_conversation_idempotent (cwm : ConversationWindowManager)
    (conversation : List Message) (sysT ragT : Int)
    (hmin : 1 ≤ cwm.min_messages_to_keep) :
    truncate_conversation cwm (truncate_conversation cwm conversation sysT ragT)
        sysT ragT
      = truncate_conversation cwm conversation sysT ragT := by
  by_cases hs : (truncate_conversation cwm conversation sysT ragT).length
      ≤ cwm.min_messages_to_keep
  · exact truncate_conversation_of_short cwm sysT ragT hs
  · rcases truncate_conversation_post cwm conversation sysT ragT hmin with h | h
    · exact absurd h hs
    · exact truncate_conversation_of_fits cwm sysT ragT hs h

/-- Witness for `truncate_conversation_idempotent` at a concrete input: the
same manager and five-message conversation as the length-bounds witness. -/
theorem truncate_conversation_idempotent_witness :
    truncate_conversation
        { max_tokens := 0, min_messages_to_keep := 4,
          token_counter := { model := "gpt-4o-mini", encode_len := fun t => t.length } }
        (truncate_conversation
          { max_tokens := 0, min_messages_to_keep := 4,
            token_counter := { model := "gpt-4o-mini", encode_len := fun t => t.length } }
          [{ role := "user", content := "a" }, { role := "assistant", content := "b" },
           { role := "user", content := "c" }, { role := "assistant", content := "d" },
           { role := "user", content := "e" }] 0 0) 0 0
      = truncate_conversation
          { max_tokens := 0, min_messages_to_keep := 4,
            token_counter := { model := "gpt-4o-mini", encode_len := fun t => t.length } }
          [{ role := "user", content := "a" }, { role := "assistant", content := "b" },
           { role := "user", content := "c" }, { role := "assistant", content := "d" },
           { role := "user", content := "e" }] 0 0 :=
  truncate_conversation_idempotent
    { max_tokens := 0, min_messages_to_keep := 4,
      token_counter := { model := "gpt-4o-mini", encode_len := fun t => t.length } }
    [{ role := "user", content := "a" }, { role := "assistant", content := "b" },
     { role := "user", content := "c" }, { role := "assistant", content := "d" },
     { role := "user", content := "e" }] 0 0 (by decide)

/-- `get_token_counter` (token_counter.py lines 353–365): the module-level
global `_default_counter` is threaded as explicit state (`none` before the
first call). -/
def get_token_counter (encFor : String → String → Nat)
    (g : Option TokenCounter) (model : String) :
    TokenCounter × Option TokenCounter :=
  match g with
  | none => (TokenCounter.make encFor model, some (TokenCounter.make encFor model))
  | some c => (c, some c)

/-- `get_window_manager` (token_counter.py lines 368–387): the module-level
global `_default_manager` threaded as explicit state; a fresh manager gets
the constructor default `min_messages_to_keep = 4`. -/
def get_window_manager (encFor : String → String → Nat)
    (g : Option ConversationWindowManager) (max_tokens : Int) (model : String) :
    ConversationWindowManager × Option ConversationWindowManager :=
  match g with
  | none =>
      ({ max_tokens := max_tokens, min_messages_to_keep := 4,
         token_counter := TokenCounter.make encFor model },
       some { max_tokens := max_tokens, min_messages_to_keep := 4,
              token_counter := TokenCounter.make encFor model })
  | some m => (m, some m)

/-- C10: after the first call has populated the module-level singleton, both
accessors return that same instance and ignore their arguments: a second call
with a different model or token budget still returns the first call's
instance, which carries the first call's configuration. -/
theorem accessors_ignore_arguments_after_first_call
    (encFor : String → String → Nat) (m1 m2 : String) (mx1 mx2 : Int)
    (c : TokenCounter) (w : ConversationWindowManager) :
    (get_token_counter encFor (some c) m2).1 = c ∧
      (get_token_counter encFor (get_token_counter encFor none m1).2 m2).1
        = (get_token_counter encFor none m1).1 ∧
      (get_token_counter encFor none m1).1.model = m1 ∧
      (get_window_manager encFor (some w) mx2 m2).1 = w ∧
      (get_window_manager encFor
          (get_window_manager encFor none mx1 m1).2 mx2 m2).1
        = (get_window_manager encFor none mx1 m1).1 ∧
      (get_window_manager encFor none mx1 m1).1.max_tokens = mx1 ∧
      (get_window_manager encFor none mx1 m1).1.token_counter.model = m1 :=
  ⟨rfl, rfl, rfl, rfl, rfl, rfl, rfl⟩
